import Mathlib

/-!
Verification development for the ApexPocket affective core.

Shallow embedding of the repository's C++ sources:
* `AffectiveCore` — `src/unnamed/part_004` (`affective_core.cpp` / `affective_core.h`)
* `Soul` — the Soul module appended in `src/esp32/src/sdconfig.h` (`soul.h`)
* `CloudClient` / `CloudStatus` — `src/unnamed/part_001` (`cloud.h`)
* `OfflineMode` — `src/unnamed/part_003` (`offline.h`)
* `chatWithCloud` — `src/esp32/src/main.cpp`
* EEPROM record checksum / tiered load — Soul persistence in `sdconfig.h`

`float` arithmetic is embedded as exact rational arithmetic over `ℚ`;
the claims under study concern the algorithmic structure (clamping,
monotone floors, threshold buckets, counters, checksums), not binary
rounding.  `millis()` is an unsigned 32-bit counter, embedded as `ℕ`
with subtraction performed modulo `2 ^ 32`.
-/

namespace ApexPocket

/-- Model of `millis()`: it wraps at 2^32; `now - last` on `unsigned long` is modular. -/
def MILLIS_MOD : ℕ := 2 ^ 32

/-- Elapsed milliseconds `now - last` as computed by 32-bit unsigned subtraction. -/
def dtMs (last now : ℕ) : ℕ :=
  ((MILLIS_MOD + now % MILLIS_MOD) - last % MILLIS_MOD) % MILLIS_MOD

/-! ### Constants from `config.h` / `affective_core.h` (identical in both variants) -/

def BETA_BASE : ℚ := 8 / 1000
def FLOOR_RATE : ℚ := 1 / 10000
def MAX_E : ℚ := 100
def INITIAL_E : ℚ := 1
def INITIAL_FLOOR : ℚ := 1

def E_GUARDED : ℚ := 1 / 2
def E_TENDER : ℚ := 1
def E_WARM : ℚ := 2
def E_FLOURISHING : ℚ := 5
def E_RADIANT : ℚ := 12
def E_TRANSCENDENT : ℚ := 30

def SAVE_INTERVAL_MS : ℕ := 60000

/-! ### Affective state enum (identical in both variants) -/

inductive AffectiveState where
  | STATE_PROTECTING
  | STATE_GUARDED
  | STATE_TENDER
  | STATE_WARM
  | STATE_FLOURISHING
  | STATE_RADIANT
  | STATE_TRANSCENDENT
deriving DecidableEq, Repr

/-- The numeric enum value of each state (`STATE_PROTECTING = 0`, ...). -/
def stateRank : AffectiveState → ℕ
  | .STATE_PROTECTING => 0
  | .STATE_GUARDED => 1
  | .STATE_TENDER => 2
  | .STATE_WARM => 3
  | .STATE_FLOURISHING => 4
  | .STATE_RADIANT => 5
  | .STATE_TRANSCENDENT => 6

/-- Source `Soul::getState` / `AffectiveCore::getState`: descending chain of
strict threshold comparisons, `STATE_PROTECTING` as the default. -/
def getState (E : ℚ) : AffectiveState :=
  if E > E_TRANSCENDENT then .STATE_TRANSCENDENT
  else if E > E_RADIANT then .STATE_RADIANT
  else if E > E_FLOURISHING then .STATE_FLOURISHING
  else if E > E_WARM then .STATE_WARM
  else if E > E_TENDER then .STATE_TENDER
  else if E > E_GUARDED then .STATE_GUARDED
  else .STATE_PROTECTING

/-- Source `beta()`: `BETA_BASE * (1 + E / 10)` (identical in both variants). -/
def beta (E : ℚ) : ℚ := BETA_BASE * (1 + E / 10)

/-- The Love-Equation body shared verbatim by `AffectiveCore::update` and
`Soul::update`: apply `dE`, cap at `MAX_E`, clamp to the floor, then raise
the floor toward `E`.  Returns the new `(E, E_floor)`. -/
def loveStep (E E_floor care damage dt : ℚ) : ℚ × ℚ :=
  let dE := beta E * (care - damage) * E * dt
  let E1 := max E_floor (min MAX_E (E + dE))
  let fl :=
    if E1 > E_floor then min E1 (E_floor + (E1 - E_floor) * FLOOR_RATE * dt)
    else E_floor
  (E1, fl)

/-! ### `AffectiveCore` (`src/unnamed/part_004`) -/

structure AffectiveCore where
  E : ℚ
  E_floor : ℚ
  lastUpdate : ℕ
  lastCare : ℕ
  birthTime : ℕ
  interactions : ℕ
  totalCare : ℚ
deriving DecidableEq, Repr

/-- The `// Apply change` / `// Cap` / `// Never drop below floor` /
`// Floor slowly rises` block of `AffectiveCore::update`. -/
def AffectiveCore.applyLove (s : AffectiveCore) (care damage dt : ℚ) :
    AffectiveCore :=
  let p := loveStep s.E s.E_floor care damage dt
  { s with E := p.1, E_floor := p.2 }

/-- The `// Update care timing` block of `AffectiveCore::update`. -/
def AffectiveCore.careTrack (s : AffectiveCore) (care : ℚ) (now : ℕ) :
    AffectiveCore :=
  if care > 0 then { s with totalCare := s.totalCare + care, lastCare := now }
  else s

/-- Source `AffectiveCore::update(care, damage, dt_minutes)`.  A negative
`dt_minutes` is the sentinel "derive dt from the clock"; the method body
then no-ops when the effective `dt ≤ 0`.  `now` is the `millis()` read;
`lastUpdate := now` happens before the `dt ≤ 0` check, as in the source. -/
def AffectiveCore.update (s : AffectiveCore) (care damage dt_minutes : ℚ)
    (now : ℕ) : AffectiveCore :=
  let dt : ℚ :=
    if dt_minutes < 0 then (dtMs s.lastUpdate now : ℚ) / 60000 else dt_minutes
  if dt ≤ 0 then { s with lastUpdate := now }
  else
    AffectiveCore.careTrack
      (AffectiveCore.applyLove { s with lastUpdate := now } care damage dt)
      care now

/-- Source `AffectiveCore::applyCare`: bump `interactions`, then `update(intensity, 0, 1)`. -/
def AffectiveCore.applyCare (s : AffectiveCore) (intensity : ℚ) (now : ℕ) :
    AffectiveCore :=
  AffectiveCore.update { s with interactions := s.interactions + 1 } intensity 0 1 now

/-- Source `AffectiveCore::applyDamage`: `update(0, intensity, 1)`. -/
def AffectiveCore.applyDamage (s : AffectiveCore) (intensity : ℚ) (now : ℕ) :
    AffectiveCore :=
  AffectiveCore.update s 0 intensity 1 now

/-! ### `Soul` (`sdconfig.h`, Soul module)

In-memory affective fields of `SoulData` plus the class locals
`lastUpdate`, `lastSave`, `dirty`.  The fixed string `firmwareVersion`
and the `checksum` slot (recomputed from the byte serialization; see the
persistence section) carry no in-memory dynamics and are omitted here. -/

structure Soul where
  E : ℚ
  E_floor : ℚ
  E_peak : ℚ
  interactions : ℕ
  totalCare : ℚ
  birthTime : ℕ
  lastCareTime : ℕ
  totalAwakeTime : ℕ
  agentIndex : ℕ
  curiosity : ℚ
  playfulness : ℚ
  wisdom : ℚ
  totalChats : ℕ
  totalSyncs : ℕ
  lastSyncTime : ℕ
  lastUpdate : ℕ
  lastSave : ℕ
  dirty : Bool
deriving DecidableEq, Repr

/-- Source `Soul::reset()` at clock reading `now`. -/
def Soul.reset (now : ℕ) : Soul where
  E := INITIAL_E
  E_floor := INITIAL_FLOOR
  E_peak := INITIAL_E
  interactions := 0
  totalCare := 0
  birthTime := now
  lastCareTime := now
  totalAwakeTime := 0
  agentIndex := 0
  curiosity := 1 / 10
  playfulness := 1 / 10
  wisdom := 0
  totalChats := 0
  totalSyncs := 0
  lastSyncTime := 0
  lastUpdate := now
  lastSave := now
  dirty := false

/-- Source `Soul::evolvePersonality(care, dt)` (reads `millis()` as `now`). -/
def Soul.evolvePersonality (s : Soul) (care dt : ℚ) (now : ℕ) : Soul :=
  let s1 :=
    if s.E < E_FLOURISHING ∧ care > 0 then
      { s with curiosity := min 1 (s.curiosity + 1 / 1000 * dt) }
    else s
  let s2 :=
    if s1.E ≥ E_FLOURISHING then
      { s1 with playfulness := min 1 (s1.playfulness + 5 / 10000 * dt) }
    else s1
  let daysTogether : ℚ := (dtMs s2.birthTime now : ℚ) / 86400000
  { s2 with wisdom := min 1 (daysTogether * (1 / 100)) }

/-- In-memory effect of `Soul::save()` (storage I/O is modelled separately
in the persistence section): stamp `lastSave` and clear `dirty`. -/
def Soul.saveMark (s : Soul) (now : ℕ) : Soul :=
  { s with lastSave := now, dirty := false }

/-- The Love-Equation / bounds / floor / `// Track peak` block of
`Soul::update`. -/
def Soul.applyLove (s : Soul) (care damage dt : ℚ) : Soul :=
  let p := loveStep s.E s.E_floor care damage dt
  { s with E := p.1, E_floor := p.2,
           E_peak := if p.1 > s.E_peak then p.1 else s.E_peak }

/-- The `// Update care tracking` block of `Soul::update`. -/
def Soul.careTrack (s : Soul) (care : ℚ) (now : ℕ) : Soul :=
  if care > 0 then
    { s with totalCare := s.totalCare + care, lastCareTime := now, dirty := true }
  else s

/-- The `// Auto-save periodically` block of `Soul::update`
(`now - lastSave > SAVE_INTERVAL_MS`, unsigned subtraction). -/
def Soul.autoSaveCheck (s : Soul) (now : ℕ) : Soul :=
  if dtMs s.lastSave now > SAVE_INTERVAL_MS then s.saveMark now else s

/-- Source `Soul::update(care, damage)`: dt is always clock-derived, with the
sanity check `dt ≤ 0 || dt > 60` skipping the update; `lastUpdate := now`
happens before the check, as in the source. -/
def Soul.update (s : Soul) (care damage : ℚ) (now : ℕ) : Soul :=
  let dt : ℚ := (dtMs s.lastUpdate now : ℚ) / 60000
  if dt ≤ 0 ∨ dt > 60 then { s with lastUpdate := now }
  else
    Soul.autoSaveCheck
      (Soul.evolvePersonality
        (Soul.careTrack (Soul.applyLove { s with lastUpdate := now } care damage dt)
          care now)
        care dt now)
      now

/-- Source `Soul::applyCare(intensity)`: bump `interactions`, then `update(intensity, 0)`. -/
def Soul.applyCare (s : Soul) (intensity : ℚ) (now : ℕ) : Soul :=
  Soul.update { s with interactions := s.interactions + 1 } intensity 0 now

/-- Source `Soul::applyDamage(intensity)`. -/
def Soul.applyDamage (s : Soul) (intensity : ℚ) (now : ℕ) : Soul :=
  Soul.update s 0 intensity now

/-- Source `Soul::recordChat()`. -/
def Soul.recordChat (s : Soul) : Soul :=
  { s with totalChats := s.totalChats + 1, dirty := true }

/-! ### `CloudClient` (`src/unnamed/part_001`)

The parsed payload fields (`tools_available`, `motd`, `tier_name`, ...)
are display data never read by the control logic under study and are
omitted; the state-machine fields of `CloudStatus` are kept in full.
Each network operation is embedded as a function of the HTTP result
`code` the transport would deliver (negative codes are transport
errors, per `HTTPClient`). -/

def API_BACKOFF_BASE_MS : ℕ := 5000
def API_BACKOFF_MAX_MS : ℕ := 60000

structure CloudStatus where
  connected : Bool
  token_valid : Bool
  billing_ok : Bool
  consecutive_failures : ℕ
  last_success : ℕ
  last_attempt : ℕ
  backoff_ms : ℕ
deriving DecidableEq, Repr

/-- The freshly constructed status (`CloudClient()` zeroes the struct,
then sets `token_valid` and `billing_ok`). -/
def CloudStatus.init : CloudStatus where
  connected := false
  token_valid := true
  billing_ok := true
  consecutive_failures := 0
  last_success := 0
  last_attempt := 0
  backoff_ms := 0

/-- Source `CloudClient::applyBackoff`: the source doubles `base` once for each
loop index `i` with `1 ≤ i < consecutive_failures` and `i < 5`, i.e.
multiplies `API_BACKOFF_BASE_MS` by `2 ^ (min consecutive_failures 5 - 1)`,
then caps at `API_BACKOFF_MAX_MS`. -/
def applyBackoff (s : CloudStatus) : CloudStatus :=
  { s with
    backoff_ms :=
      min (API_BACKOFF_BASE_MS * 2 ^ (min s.consecutive_failures 5 - 1))
        API_BACKOFF_MAX_MS }

/-- Source `CloudClient::handleResponseCode(code, status)` (`now` = `millis()`). -/
def handleResponseCode (code : ℤ) (now : ℕ) (s : CloudStatus) : CloudStatus :=
  if code = 200 then
    { s with connected := true, consecutive_failures := 0, last_success := now,
             backoff_ms := 0 }
  else if code = 401 then { s with token_valid := false }
  else if code = 402 then { s with billing_ok := false }
  else if 500 ≤ code then
    applyBackoff { s with consecutive_failures := s.consecutive_failures + 1 }
  else if code < 0 then
    applyBackoff
      { s with connected := false,
               consecutive_failures := s.consecutive_failures + 1 }
  else s

structure CloudClient where
  initialized : Bool
  configured : Bool
  status : CloudStatus
deriving DecidableEq, Repr

/-- Source `CloudClient::shouldAttempt()` at clock reading `now`. -/
def CloudClient.shouldAttempt (c : CloudClient) (now : ℕ) : Bool :=
  if !c.initialized || !c.configured then false
  else if !c.status.token_valid then false
  else if c.status.backoff_ms > 0 &&
      dtMs c.status.last_attempt now < c.status.backoff_ms then false
  else true

/-- Source `CloudClient::fetchStatus()`: gate on `shouldAttempt`, stamp
`last_attempt`, classify the response; returns `(code == 200, client')`. -/
def CloudClient.fetchStatus (c : CloudClient) (now : ℕ) (code : ℤ) :
    Bool × CloudClient :=
  if !c.shouldAttempt now then (false, c)
  else
    let st := handleResponseCode code now { c.status with last_attempt := now }
    (code == 200, { c with status := st })

/-- Source `CloudClient::chat(...)`: additionally gated on `billing_ok`
(`// Don't try chat when 402`). -/
def CloudClient.chat (c : CloudClient) (now : ℕ) (code : ℤ) :
    Bool × CloudClient :=
  if !c.shouldAttempt now then (false, c)
  else if !c.status.billing_ok then (false, c)
  else
    let st := handleResponseCode code now { c.status with last_attempt := now }
    (code == 200, { c with status := st })

/-- Source `CloudClient::care(...)`: no billing gate (fire-and-forget telemetry). -/
def CloudClient.care (c : CloudClient) (now : ℕ) (code : ℤ) :
    Bool × CloudClient :=
  if !c.shouldAttempt now then (false, c)
  else
    let st := handleResponseCode code now { c.status with last_attempt := now }
    (code == 200, { c with status := st })

/-- Source `CloudClient::sync(...)`: no billing gate. -/
def CloudClient.sync (c : CloudClient) (now : ℕ) (code : ℤ) :
    Bool × CloudClient :=
  if !c.shouldAttempt now then (false, c)
  else
    let st := handleResponseCode code now { c.status with last_attempt := now }
    (code == 200, { c with status := st })

/-- Source `CloudClient::fetchAgents(...)`. -/
def CloudClient.fetchAgents (c : CloudClient) (now : ℕ) (code : ℤ) :
    Bool × CloudClient :=
  if !c.shouldAttempt now then (false, c)
  else
    let st := handleResponseCode code now { c.status with last_attempt := now }
    (code == 200, { c with status := st })

/-- One outbound operation of the client: which endpoint was called, the
`millis()` reading at the call, and the HTTP result the transport
produced. -/
inductive CloudOp where
  | fetchStatus (now : ℕ) (code : ℤ)
  | chat (now : ℕ) (code : ℤ)
  | care (now : ℕ) (code : ℤ)
  | sync (now : ℕ) (code : ℤ)
  | fetchAgents (now : ℕ) (code : ℤ)
deriving DecidableEq, Repr

/-- State effect of one operation. -/
def CloudClient.step (c : CloudClient) : CloudOp → CloudClient
  | .fetchStatus now code => (c.fetchStatus now code).2
  | .chat now code => (c.chat now code).2
  | .care now code => (c.care now code).2
  | .sync now code => (c.sync now code).2
  | .fetchAgents now code => (c.fetchAgents now code).2

/-- Run a sequence of operations. -/
def CloudClient.run (c : CloudClient) (ops : List CloudOp) : CloudClient :=
  ops.foldl CloudClient.step c

/-! ### `OfflineMode` (`src/unnamed/part_003`) -/

structure OfflineMode where
  isOffline : Bool
  consecutiveFailures : ℕ
deriving DecidableEq, Repr

/-- Source `OfflineMode()` constructor. -/
def OfflineMode.init : OfflineMode where
  isOffline := false
  consecutiveFailures := 0

/-- Source `OfflineMode::setOffline(offline)`: the back-online edge also resets
the failure counter. -/
def OfflineMode.setOffline (o : OfflineMode) (offline : Bool) : OfflineMode :=
  if !offline && o.isOffline then
    { isOffline := offline, consecutiveFailures := 0 }
  else { o with isOffline := offline }

/-- Source `OfflineMode::connectionFailed()`. -/
def OfflineMode.connectionFailed (o : OfflineMode) : OfflineMode :=
  let o1 := { o with consecutiveFailures := o.consecutiveFailures + 1 }
  if o1.consecutiveFailures ≥ 2 then o1.setOffline true else o1

/-- Source `OfflineMode::connectionSuccess()`. -/
def OfflineMode.connectionSuccess (o : OfflineMode) : OfflineMode :=
  OfflineMode.setOffline { o with consecutiveFailures := 0 } false

/-! ### `chatWithCloud` (`src/esp32/src/main.cpp`)

The returned strings (offline pools, auth/billing messages, the cloud
response text) are opaque to the claims; only which source produced the
reply matters, recorded as a `ChatSource` tag.  `code` is the HTTP
result an attempted `cloud.chat` would see and `careValue` the parsed
`care_value` of a successful response. -/

inductive ChatSource where
  | offline
  | auth
  | billing
  | cloud
deriving DecidableEq, Repr

structure ChatOutcome where
  soul : Soul
  client : CloudClient
  om : OfflineMode
  source : ChatSource
deriving DecidableEq, Repr

def chatWithCloud (wifiConnected : Bool) (c : CloudClient) (s : Soul)
    (om : OfflineMode) (now : ℕ) (code : ℤ) (careValue : ℚ) : ChatOutcome :=
  if !wifiConnected || !c.initialized then
    { soul := s.applyCare (1 / 2) now, client := c, om := om, source := .offline }
  else if !c.status.token_valid then
    { soul := s, client := c, om := om, source := .auth }
  else if !c.status.billing_ok then
    { soul := s.applyCare (3 / 10) now, client := c, om := om, source := .billing }
  else
    let r := c.chat now code
    if r.1 then
      { soul := Soul.recordChat (Soul.applyCare s careValue now), client := r.2,
        om := om.connectionSuccess, source := .cloud }
    else if !r.2.status.billing_ok then
      { soul := s, client := r.2, om := om, source := .billing }
    else
      { soul := s.applyCare (1 / 2) now, client := r.2,
        om := om.connectionFailed, source := .offline }

/-! ### EEPROM persistence (`Soul::save` / `Soul::loadFromEEPROM` / `Soul::load`)

The 80-byte `SoulData` record is embedded as a list of byte values: the
first 76 bytes are the payload (all fields and padding up to, but not
including, the trailing `uint32_t checksum`), the last 4 the
little-endian checksum.  `calculateChecksum` sums `byte * (i+1)` in
`uint32_t` arithmetic; summing in `ℕ` and reducing once modulo `2^32`
agrees with per-addition wraparound since `(a % m + b) % m = (a + b) % m`. -/

def EEPROM_MAGIC : ℕ := 0x41504558
def CHECKSUM_XOR : ℕ := 0xA9EF
def SOUL_BYTES : ℕ := 80
def PAYLOAD_BYTES : ℕ := 76

/-- Weighted byte sum `Σ bytes[i] * (w + i)`: the weighted byte sum starting at weight `w`. -/
def wsumFrom : ℕ → List ℕ → ℕ
  | _, [] => 0
  | w, b :: bs => b * w + wsumFrom (w + 1) bs

/-- Source `Soul::calculateChecksum` over the payload bytes (weights `i + 1`). -/
def calculateChecksum (payload : List ℕ) : ℕ :=
  wsumFrom 1 payload % 2 ^ 32 ^^^ CHECKSUM_XOR

/-- Little-endian bytes of a `uint32_t`. -/
def encode32 (v : ℕ) : List ℕ :=
  [v % 256, v / 2 ^ 8 % 256, v / 2 ^ 16 % 256, v / 2 ^ 24 % 256]

/-- Read a little-endian `uint32_t` from the head of a byte list. -/
def decode32 (bs : List ℕ) : ℕ :=
  bs.getD 0 0 + 2 ^ 8 * bs.getD 1 0 + 2 ^ 16 * bs.getD 2 0 + 2 ^ 24 * bs.getD 3 0

/-- The record `Soul::save()` writes at `EEPROM_SOUL_ADDR`: the payload
bytes followed by `calculateChecksum` of them (the write happens after
`data.checksum = calculateChecksum()`). -/
def savedRecord (payload : List ℕ) : List ℕ :=
  payload ++ encode32 (calculateChecksum payload)

/-- Validation performed by `Soul::loadFromEEPROM`: the EEPROM must
answer, the magic must match, and the recomputed weighted byte sum of
the payload must equal the stored checksum.  Only then is the record
copied into memory (`memcpy` on the success path alone, so a rejected
record is never partially trusted). -/
def eepromAccept (eeprom_found : Bool) (magic : ℕ) (record : List ℕ) : Bool :=
  eeprom_found && magic == EEPROM_MAGIC &&
    decode32 (record.drop PAYLOAD_BYTES) == calculateChecksum (record.take PAYLOAD_BYTES)

/-- Which tier `Soul::load()` ends up trusting. -/
inductive LoadTier where
  | eeprom
  | littlefs
  | fresh
deriving DecidableEq, Repr

/-- Source `Soul::load()`: EEPROM first, LittleFS on rejection, factory reset
when both fail.  `littlefs_ok` abstracts `loadFromLittleFS()` succeeding
on the secondary tier's JSON document. -/
def soulLoad (eeprom_found : Bool) (magic : ℕ) (record : List ℕ)
    (littlefs_available littlefs_ok : Bool) : LoadTier :=
  if eepromAccept eeprom_found magic record then .eeprom
  else if littlefs_available && littlefs_ok then .littlefs
  else .fresh

/-! ### Invariants and inputs for the engine claims -/

/-- Spec section 3 invariant 1 for the `AffectiveCore` variant: `E_floor ≤ E ≤ MAX_E`. -/
def coreInv (s : AffectiveCore) : Prop :=
  s.E_floor ≤ s.E ∧ s.E ≤ MAX_E

/-- Spec section 3 invariants for the `Soul` variant; `E ≤ E_peak` states that the
peak has absorbed the current value. -/
def soulInv (s : Soul) : Prop :=
  s.E_floor ≤ s.E ∧ s.E ≤ MAX_E ∧ s.E ≤ s.E_peak

instance (s : AffectiveCore) : Decidable (coreInv s) := by
  unfold coreInv; infer_instance

instance (s : Soul) : Decidable (soulInv s) := by
  unfold soulInv; infer_instance

/-- One call of `AffectiveCore::update` in a trace. -/
structure CoreInput where
  care : ℚ
  damage : ℚ
  dt_minutes : ℚ
  now : ℕ
deriving DecidableEq, Repr

/-- One call of `Soul::update` in a trace. -/
structure SoulInput where
  care : ℚ
  damage : ℚ
  now : ℕ
deriving DecidableEq, Repr

def runCore (s : AffectiveCore) (l : List CoreInput) : AffectiveCore :=
  l.foldl (fun t x => t.update x.care x.damage x.dt_minutes x.now) s

def runSoul (s : Soul) (l : List SoulInput) : Soul :=
  l.foldl (fun t x => t.update x.care x.damage x.now) s

/-! ### Helper lemmas -/

theorem dtMs_self (n : ℕ) : dtMs n n = 0 := by
  simp [dtMs]

theorem loveStep_bounds (E Efl c d dt : ℚ) (h1 : Efl ≤ E) (h2 : E ≤ MAX_E)
    (hdt : 0 ≤ dt) :
    Efl ≤ (loveStep E Efl c d dt).2 ∧
      (loveStep E Efl c d dt).2 ≤ (loveStep E Efl c d dt).1 ∧
      (loveStep E Efl c d dt).1 ≤ MAX_E := by
  unfold loveStep
  dsimp only
  set dE := beta E * (c - d) * E * dt with hdE
  set E1 := max Efl (min MAX_E (E + dE)) with hE1
  have hEfl_le_E1 : Efl ≤ E1 := le_max_left _ _
  have hE1_le : E1 ≤ MAX_E := max_le (h1.trans h2) (min_le_left _ _)
  split_ifs with h
  · have hδ : 0 ≤ (E1 - Efl) * FLOOR_RATE * dt :=
      mul_nonneg (mul_nonneg (by linarith) (by norm_num [FLOOR_RATE])) hdt
    exact ⟨le_min h.le (by linarith), min_le_left _ _, hE1_le⟩
  · exact ⟨le_refl _, hEfl_le_E1, hE1_le⟩

theorem core_careTrack_affect (s : AffectiveCore) (care : ℚ) (now : ℕ) :
    (s.careTrack care now).E = s.E ∧ (s.careTrack care now).E_floor = s.E_floor := by
  unfold AffectiveCore.careTrack
  split_ifs <;> exact ⟨rfl, rfl⟩

theorem core_update_inv (s : AffectiveCore) (c d t : ℚ) (now : ℕ)
    (h : coreInv s) :
    coreInv (s.update c d t now) ∧ s.E_floor ≤ (s.update c d t now).E_floor := by
  rw [AffectiveCore.update]
  by_cases hle : (if t < 0 then (dtMs s.lastUpdate now : ℚ) / 60000 else t) ≤ 0
  · rw [if_pos hle]
    exact ⟨h, le_refl _⟩
  · rw [if_neg hle]
    set dt : ℚ := if t < 0 then (dtMs s.lastUpdate now : ℚ) / 60000 else t with hdt
    have hdt0 : 0 ≤ dt := le_of_not_le hle
    have hb := loveStep_bounds s.E s.E_floor c d dt h.1 h.2 hdt0
    obtain ⟨hE, hF⟩ :=
      core_careTrack_affect
        (AffectiveCore.applyLove { s with lastUpdate := now } c d dt) c now
    rw [coreInv, hE, hF]
    exact ⟨⟨hb.2.1, hb.2.2⟩, hb.1⟩

theorem soul_careTrack_affect (s : Soul) (care : ℚ) (now : ℕ) :
    (s.careTrack care now).E = s.E ∧ (s.careTrack care now).E_floor = s.E_floor ∧
      (s.careTrack care now).E_peak = s.E_peak := by
  unfold Soul.careTrack
  split_ifs <;> exact ⟨rfl, rfl, rfl⟩

theorem soul_evolvePersonality_affect (s : Soul) (care dt : ℚ) (now : ℕ) :
    (s.evolvePersonality care dt now).E = s.E ∧
      (s.evolvePersonality care dt now).E_floor = s.E_floor ∧
      (s.evolvePersonality care dt now).E_peak = s.E_peak := by
  rw [Soul.evolvePersonality]
  split_ifs <;> exact ⟨rfl, rfl, rfl⟩

theorem soul_autoSaveCheck_affect (s : Soul) (now : ℕ) :
    (s.autoSaveCheck now).E = s.E ∧ (s.autoSaveCheck now).E_floor = s.E_floor ∧
      (s.autoSaveCheck now).E_peak = s.E_peak := by
  unfold Soul.autoSaveCheck Soul.saveMark
  split_ifs <;> exact ⟨rfl, rfl, rfl⟩

theorem soul_update_inv (s : Soul) (c d : ℚ) (now : ℕ) (h : soulInv s) :
    soulInv (s.update c d now) ∧ s.E_floor ≤ (s.update c d now).E_floor ∧
      (s.update c d now).E_peak = max s.E_peak (s.update c d now).E := by
  rw [Soul.update]
  by_cases hskip :
      ((dtMs s.lastUpdate now : ℚ) / 60000 ≤ 0 ∨ (dtMs s.lastUpdate now : ℚ) / 60000 > 60)
  · rw [if_pos hskip]
    exact ⟨h, le_refl _, (max_eq_left h.2.2).symm⟩
  · rw [if_neg hskip]
    set dt : ℚ := (dtMs s.lastUpdate now : ℚ) / 60000 with hdtdef
    have hdt0 : 0 ≤ dt := le_of_not_le (not_or.mp hskip).1
    have hb := loveStep_bounds s.E s.E_floor c d dt h.1 h.2.1 hdt0
    set u := Soul.applyLove { s with lastUpdate := now } c d dt with hu
    obtain ⟨hE3, hF3, hP3⟩ :=
      soul_autoSaveCheck_affect
        (Soul.evolvePersonality (Soul.careTrack u c now) c dt now) now
    obtain ⟨hE2, hF2, hP2⟩ :=
      soul_evolvePersonality_affect (Soul.careTrack u c now) c dt now
    obtain ⟨hE1, hF1, hP1⟩ := soul_careTrack_affect u c now
    rw [soulInv, hE3, hF3, hP3, hE2, hF2, hP2, hE1, hF1, hP1]
    have huE : u.E = (loveStep s.E s.E_floor c d dt).1 := rfl
    have huF : u.E_floor = (loveStep s.E s.E_floor c d dt).2 := rfl
    have huP : u.E_peak =
        if (loveStep s.E s.E_floor c d dt).1 > s.E_peak
        then (loveStep s.E s.E_floor c d dt).1 else s.E_peak := rfl
    rw [huE, huF, huP]
    have hpeak_eq :
        (if (loveStep s.E s.E_floor c d dt).1 > s.E_peak
         then (loveStep s.E s.E_floor c d dt).1 else s.E_peak) =
          max s.E_peak (loveStep s.E s.E_floor c d dt).1 := by
      split_ifs with hgt
      · exact (max_eq_right hgt.le).symm
      · exact (max_eq_left (le_of_not_lt hgt)).symm
    rw [hpeak_eq]
    exact ⟨⟨hb.2.1, hb.2.2, le_max_right _ _⟩, hb.1, rfl⟩

theorem runCore_inv (l : List CoreInput) :
    ∀ s : AffectiveCore, coreInv s → coreInv (runCore s l) := by
  induction l with
  | nil => exact fun s h => h
  | cons x xs ih =>
    intro s h
    exact ih _ (core_update_inv s x.care x.damage x.dt_minutes x.now h).1

theorem runSoul_inv (l : List SoulInput) :
    ∀ s : Soul, soulInv s → soulInv (runSoul s l) := by
  induction l with
  | nil => exact fun s h => h
  | cons x xs ih =>
    intro s h
    exact ih _ (soul_update_inv s x.care x.damage x.now h).1

theorem runCore_append (s : AffectiveCore) (a b : List CoreInput) :
    runCore s (a ++ b) = runCore (runCore s a) b := by
  simp [runCore]

theorem runSoul_append (s : Soul) (a b : List SoulInput) :
    runSoul s (a ++ b) = runSoul (runSoul s a) b := by
  simp [runSoul]

theorem handleResponseCode_token_mono (code : ℤ) (now : ℕ) (s : CloudStatus)
    (h : s.token_valid = false) :
    (handleResponseCode code now s).token_valid = false := by
  rw [handleResponseCode]
  split_ifs <;> simp [applyBackoff, h]

theorem shouldAttempt_of_token_invalid (c : CloudClient) (t : ℕ)
    (h : c.status.token_valid = false) : c.shouldAttempt t = false := by
  rw [CloudClient.shouldAttempt, h]
  split_ifs <;> simp_all

theorem step_of_token_invalid (c : CloudClient) (op : CloudOp)
    (h : c.status.token_valid = false) : c.step op = c := by
  cases op <;>
    simp [CloudClient.step, CloudClient.fetchStatus, CloudClient.chat,
      CloudClient.care, CloudClient.sync, CloudClient.fetchAgents,
      shouldAttempt_of_token_invalid c _ h]

theorem run_of_token_invalid (c : CloudClient) (ops : List CloudOp)
    (h : c.status.token_valid = false) : c.run ops = c := by
  induction ops with
  | nil => rfl
  | cons op ops ih =>
    show CloudClient.run (c.step op) ops = c
    rw [step_of_token_invalid c op h, ih]

/-! ### Checksum lemmas for the EEPROM record -/

/-- Partial weight sum `Σ_{i=0}^{n-1} (w + i)` — the sum of the weights used from position
`w` over `n` bytes. -/
def sumWeights : ℕ → ℕ → ℕ
  | _, 0 => 0
  | w, n + 1 => w + sumWeights (w + 1) n

theorem wsumFrom_le (l : List ℕ) :
    ∀ w : ℕ, (∀ b ∈ l, b < 256) → wsumFrom w l ≤ 255 * sumWeights w l.length := by
  induction l with
  | nil => intro w _; simp [wsumFrom, sumWeights]
  | cons b bs ih =>
    intro w hb
    have hbb : b ≤ 255 := by
      have := hb b (List.mem_cons_self b bs)
      omega
    have h1 : b * w ≤ 255 * w := Nat.mul_le_mul_right w hbb
    have h2 := ih (w + 1) (fun x hx => hb x (List.mem_cons_of_mem b hx))
    show b * w + wsumFrom (w + 1) bs ≤ 255 * sumWeights w (bs.length + 1)
    show b * w + wsumFrom (w + 1) bs ≤ 255 * (w + sumWeights (w + 1) bs.length)
    calc b * w + wsumFrom (w + 1) bs
        ≤ 255 * w + 255 * sumWeights (w + 1) bs.length := Nat.add_le_add h1 h2
      _ = 255 * (w + sumWeights (w + 1) bs.length) := by ring

theorem wsumFrom_set (l : List ℕ) :
    ∀ (w j v : ℕ), j < l.length →
      wsumFrom w (l.set j v) + l.getD j 0 * (w + j) =
        wsumFrom w l + v * (w + j) := by
  induction l with
  | nil => intro w j v h; simp at h
  | cons b bs ih =>
    intro w j v h
    cases j with
    | zero =>
      show v * w + wsumFrom (w + 1) bs + b * (w + 0) =
        b * w + wsumFrom (w + 1) bs + v * (w + 0)
      ring
    | succ k =>
      have hk : k < bs.length := by
        simp only [List.length_cons] at h
        omega
      have := ih (w + 1) k v hk
      show b * w + wsumFrom (w + 1) (bs.set k v) + bs.getD k 0 * (w + (k + 1)) =
        b * w + wsumFrom (w + 1) bs + v * (w + (k + 1))
      have harr : w + (k + 1) = (w + 1) + k := by omega
      rw [harr]
      omega

theorem xor_right_cancel {a b c : ℕ} (h : a ^^^ c = b ^^^ c) : a = b := by
  have h2 := congrArg (fun x => x ^^^ c) h
  simpa [Nat.xor_assoc, Nat.xor_self, Nat.xor_zero] using h2

theorem wsum_payload_lt (l : List ℕ) (hlen : l.length = PAYLOAD_BYTES)
    (hb : ∀ b ∈ l, b < 256) : wsumFrom 1 l < 2 ^ 32 := by
  have h := wsumFrom_le l 1 hb
  rw [hlen] at h
  have hsw : 255 * sumWeights 1 PAYLOAD_BYTES < 2 ^ 32 := by decide
  omega

theorem calculateChecksum_lt (l : List ℕ) : calculateChecksum l < 2 ^ 32 := by
  unfold calculateChecksum
  exact Nat.xor_lt_two_pow (Nat.mod_lt _ (by norm_num)) (by norm_num [CHECKSUM_XOR])

theorem calculateChecksum_set_ne (l : List ℕ) (hb : ∀ b ∈ l, b < 256)
    (hlen : l.length = PAYLOAD_BYTES) (j v : ℕ) (hj : j < PAYLOAD_BYTES)
    (hv : v < 256) (hne : v ≠ l.getD j 0) :
    calculateChecksum (l.set j v) ≠ calculateChecksum l := by
  intro heq
  unfold calculateChecksum at heq
  have hmod := xor_right_cancel heq
  have hlt1 : wsumFrom 1 (l.set j v) < 2 ^ 32 := by
    refine wsum_payload_lt _ (by rw [List.length_set, hlen]) ?_
    intro b hbmem
    rcases List.mem_or_eq_of_mem_set hbmem with hmem | hbv
    · exact hb b hmem
    · omega
  have hlt2 : wsumFrom 1 l < 2 ^ 32 := wsum_payload_lt l hlen hb
  rw [Nat.mod_eq_of_lt hlt1, Nat.mod_eq_of_lt hlt2] at hmod
  have hset := wsumFrom_set l 1 j v (by omega)
  have hmul : l.getD j 0 * (1 + j) = v * (1 + j) := by omega
  have : l.getD j 0 = v := Nat.eq_of_mul_eq_mul_right (by omega) hmul
  exact hne this.symm

theorem decode32_encode32 (x : ℕ) (hx : x < 2 ^ 32) :
    decode32 (encode32 x) = x := by
  simp only [encode32, decode32, List.getD_cons_zero, List.getD_cons_succ]
  omega

theorem encode32_bytes_lt (x : ℕ) : ∀ b ∈ encode32 x, b < 256 := by
  intro b hb
  simp only [encode32, List.mem_cons, List.not_mem_nil, or_false] at hb
  rcases hb with h | h | h | h <;> subst h <;> exact Nat.mod_lt _ (by norm_num)

theorem decode32_set_ne (x k v : ℕ) (hx : x < 2 ^ 32) (hk : k < 4)
    (hne : v ≠ (encode32 x).getD k 0) :
    decode32 ((encode32 x).set k v) ≠ x := by
  interval_cases k <;>
    · simp only [encode32, decode32, List.set, List.getD_cons_zero,
        List.getD_cons_succ] at hne ⊢
      omega

/-- Fold a list of classified responses (code, millis reading) through
`handleResponseCode`. -/
def runCodes (s : CloudStatus) (l : List (ℤ × ℕ)) : CloudStatus :=
  l.foldl (fun st p => handleResponseCode p.1 p.2 st) s

theorem handleResponseCode_fail (code : ℤ) (now : ℕ) (s : CloudStatus)
    (h : 500 ≤ code ∨ code < 0) :
    (handleResponseCode code now s).consecutive_failures =
        s.consecutive_failures + 1 ∧
      (handleResponseCode code now s).backoff_ms =
        min (API_BACKOFF_BASE_MS * 2 ^ (min (s.consecutive_failures + 1) 5 - 1))
          API_BACKOFF_MAX_MS := by
  have h200 : code ≠ 200 := by omega
  have h401 : code ≠ 401 := by omega
  have h402 : code ≠ 402 := by omega
  rcases h with h5 | hneg
  · rw [handleResponseCode, if_neg h200, if_neg h401, if_neg h402, if_pos h5]
    exact ⟨rfl, rfl⟩
  · have hn5 : ¬(500 ≤ code) := by omega
    rw [handleResponseCode, if_neg h200, if_neg h401, if_neg h402, if_neg hn5,
      if_pos hneg]
    exact ⟨rfl, rfl⟩

theorem runCodes_fail (l : List (ℤ × ℕ)) :
    ∀ s : CloudStatus, (∀ p ∈ l, 500 ≤ p.1 ∨ p.1 < 0) →
      (runCodes s l).consecutive_failures = s.consecutive_failures + l.length ∧
        (l ≠ [] → (runCodes s l).backoff_ms =
          min (API_BACKOFF_BASE_MS *
              2 ^ (min (s.consecutive_failures + l.length) 5 - 1))
            API_BACKOFF_MAX_MS) := by
  induction l with
  | nil =>
    intro s _
    exact ⟨by simp [runCodes], fun hne => absurd rfl hne⟩
  | cons p ps ih =>
    intro s h
    have hp := h p (List.mem_cons_self p ps)
    have hstep := handleResponseCode_fail p.1 p.2 s hp
    have hrest := ih (handleResponseCode p.1 p.2 s)
      (fun q hq => h q (List.mem_cons_of_mem p hq))
    have hshow : runCodes s (p :: ps) = runCodes (handleResponseCode p.1 p.2 s) ps := rfl
    constructor
    · rw [hshow, hrest.1, hstep.1, List.length_cons]
      omega
    · intro _
      rcases eq_or_ne ps ([] : List (ℤ × ℕ)) with hne | hne
      · subst hne
        rw [hshow]
        show (handleResponseCode p.1 p.2 s).backoff_ms = _
        rw [hstep.2, List.length_cons]
        norm_num
      · rw [hshow, hrest.2 hne, hstep.1, List.length_cons]
        have harith : s.consecutive_failures + 1 + ps.length =
            s.consecutive_failures + (ps.length + 1) := by omega
        rw [harith]

theorem backoff_min_pow (k : ℕ) :
    min (API_BACKOFF_BASE_MS * 2 ^ (min k 5 - 1)) API_BACKOFF_MAX_MS =
      min (API_BACKOFF_BASE_MS * 2 ^ (k - 1)) API_BACKOFF_MAX_MS := by
  by_cases h : k ≤ 5
  · rw [min_eq_left h]
  · rw [min_eq_right (by omega : (5 : ℕ) ≤ k)]
    unfold API_BACKOFF_BASE_MS API_BACKOFF_MAX_MS
    have hpow : (2 : ℕ) ^ 5 ≤ 2 ^ (k - 1) :=
      Nat.pow_le_pow_right (by norm_num) (by omega)
    have hbig : (60000 : ℕ) ≤ 5000 * 2 ^ (k - 1) := by
      calc (60000 : ℕ) ≤ 5000 * 2 ^ 5 := by norm_num
        _ ≤ 5000 * 2 ^ (k - 1) := Nat.mul_le_mul_left _ hpow
    rw [min_eq_right hbig]
    norm_num

theorem connectionFailed_iterate (n : ℕ) :
    OfflineMode.connectionFailed^[n] OfflineMode.init =
      ⟨decide (2 ≤ n), n⟩ := by
  induction n with
  | zero => rfl
  | succ k ih =>
    rw [Function.iterate_succ_apply', ih]
    match k with
    | 0 => decide
    | 1 => decide
    | (m + 2) =>
      simp [OfflineMode.connectionFailed, OfflineMode.setOffline,
        show (2 : ℕ) ≤ m + 2 from by omega, show (2 : ℕ) ≤ m + 2 + 1 from by omega]

theorem handleResponseCode_billing_mono (code : ℤ) (now : ℕ) (s : CloudStatus)
    (h : s.billing_ok = false) :
    (handleResponseCode code now s).billing_ok = false := by
  rw [handleResponseCode]
  split_ifs <;> simp [applyBackoff, h]

theorem handleResponseCode_last_attempt (code : ℤ) (now : ℕ) (s : CloudStatus) :
    (handleResponseCode code now s).last_attempt = s.last_attempt := by
  rw [handleResponseCode]
  split_ifs <;> rfl

theorem step_billing_mono (c : CloudClient) (op : CloudOp)
    (h : c.status.billing_ok = false) :
    (c.step op).status.billing_ok = false := by
  cases op <;>
    · simp only [CloudClient.step, CloudClient.fetchStatus, CloudClient.chat,
        CloudClient.care, CloudClient.sync, CloudClient.fetchAgents]
      split_ifs <;>
        first
          | exact h
          | exact handleResponseCode_billing_mono _ _ _ h

theorem run_billing_mono (ops : List CloudOp) :
    ∀ c : CloudClient, c.status.billing_ok = false →
      (c.run ops).status.billing_ok = false := by
  induction ops with
  | nil => exact fun c h => h
  | cons op ops ih =>
    intro c h
    exact ih _ (step_billing_mono c op h)

theorem chat_blocked_of_billing (c : CloudClient) (now : ℕ) (code : ℤ)
    (h : c.status.billing_ok = false) : c.chat now code = (false, c) := by
  rw [CloudClient.chat]
  split_ifs with hA hB
  · rfl
  · rfl
  · exfalso
    simp [h] at hB

/-- Indicator: does `E` strictly exceed the threshold `t`?  (Spec-side
notion used to characterise `getState`.) -/
def thresholdHit (t E : ℚ) : ℕ := if t < E then 1 else 0

/-- Spec-side characterisation of the bucket index: the number of the
seven ordered thresholds strictly exceeded (0 when none — the
`STATE_PROTECTING` catch-all), i.e. the index of the highest bucket
whose threshold `t` satisfies `E > t`. -/
def countExceeded (E : ℚ) : ℕ :=
  thresholdHit E_GUARDED E + thresholdHit E_TENDER E + thresholdHit E_WARM E +
    thresholdHit E_FLOURISHING E + thresholdHit E_RADIANT E +
    thresholdHit E_TRANSCENDENT E

theorem thresholdHit_mono (t : ℚ) {a b : ℚ} (h : a ≤ b) :
    thresholdHit t a ≤ thresholdHit t b := by
  unfold thresholdHit
  split_ifs with h1 h2
  · exact le_refl _
  · exact absurd (lt_of_lt_of_le h1 h) h2
  · omega
  · exact le_refl _

theorem countExceeded_mono {a b : ℚ} (h : a ≤ b) :
    countExceeded a ≤ countExceeded b :=
  add_le_add
    (add_le_add
      (add_le_add
        (add_le_add (add_le_add (thresholdHit_mono _ h) (thresholdHit_mono _ h))
          (thresholdHit_mono _ h))
        (thresholdHit_mono _ h))
      (thresholdHit_mono _ h))
    (thresholdHit_mono _ h)

theorem stateRank_getState (E : ℚ) : stateRank (getState E) = countExceeded E := by
  unfold getState countExceeded thresholdHit E_GUARDED E_TENDER E_WARM
    E_FLOURISHING E_RADIANT E_TRANSCENDENT
  split_ifs <;> first | (exfalso; linarith) | simp [stateRank]

/-! ### Claim theorems -/

/-- C3: after the client handles a 401 response (`token_valid := false`),
no later operation ever sets `token_valid` back and `shouldAttempt()`
returns false at every later time, whatever responses arrive. -/
theorem auth_reject_blocks_all_attempts (c : CloudClient) (now0 : ℕ)
    (ops : List CloudOp) (t : ℕ) :
    (CloudClient.run { c with status := handleResponseCode 401 now0 c.status }
        ops).status.token_valid = false ∧
      (CloudClient.run { c with status := handleResponseCode 401 now0 c.status }
          ops).shouldAttempt t = false := by
  have h401 : (handleResponseCode 401 now0 c.status).token_valid = false := by
    rw [handleResponseCode]
    norm_num
  have hrun :
      CloudClient.run { c with status := handleResponseCode 401 now0 c.status } ops =
        { c with status := handleResponseCode 401 now0 c.status } :=
    run_of_token_invalid _ ops h401
  rw [hrun]
  exact ⟨h401, shouldAttempt_of_token_invalid _ t h401⟩

/-- Concrete state for the C8 counterexample: a client that has had a
successful request (`connected = true`). -/
def statusConnected : CloudStatus := { CloudStatus.init with connected := true }

/-- C8 counterexample: handling a 500 response does NOT set
`connected = false` — only the transport-error branch (`code < 0`) does.
Here `connected` stays `true`. -/
theorem server_error_leaves_connected :
    (handleResponseCode 500 0 statusConnected).connected = true := by decide

/-- C8 (amended): a server-error response (`code ≥ 500`) leaves
`connected` unchanged, increments `consecutive_failures`, and sets
`backoff_ms = min (base * 2 ^ (min f 5 - 1)) backoffMax` where `f` is
the new failure count. -/
theorem server_error_effects (s : CloudStatus) (now : ℕ) (code : ℤ)
    (h : 500 ≤ code) :
    (handleResponseCode code now s).connected = s.connected ∧
      (handleResponseCode code now s).consecutive_failures =
        s.consecutive_failures + 1 ∧
      (handleResponseCode code now s).backoff_ms =
        min (API_BACKOFF_BASE_MS * 2 ^ (min (s.consecutive_failures + 1) 5 - 1))
          API_BACKOFF_MAX_MS := by
  have h200 : code ≠ 200 := by omega
  have h401 : code ≠ 401 := by omega
  have h402 : code ≠ 402 := by omega
  rw [handleResponseCode, if_neg h200, if_neg h401, if_neg h402, if_pos h]
  exact ⟨rfl, rfl, rfl⟩

theorem server_error_effects_witness :
    (500 : ℤ) ≤ 500 ∧
      (handleResponseCode 500 7 CloudStatus.init).consecutive_failures =
        CloudStatus.init.consecutive_failures + 1 :=
  ⟨by decide, (server_error_effects CloudStatus.init 7 500 (by decide)).2.1⟩

/-- Concrete engine state for the C9 counterexample (fresh defaults,
clock at 0). -/
def core0 : AffectiveCore where
  E := INITIAL_E
  E_floor := INITIAL_FLOOR
  lastUpdate := 0
  lastCare := 0
  birthTime := 0
  interactions := 0
  totalCare := 0

/-- C9 counterexample: a NEGATIVE `dt` argument is not a no-op — it is
the sentinel that re-derives `dt` from the clock.  With one minute of
clock time elapsed, `update(1, 0, -1)` changes `E`. -/
theorem negative_dt_not_noop :
    (core0.update 1 0 (-1) 60000).E ≠ core0.E := by
  norm_num [AffectiveCore.update, AffectiveCore.applyLove, AffectiveCore.careTrack,
    loveStep, beta, core0, dtMs, MILLIS_MOD, BETA_BASE, FLOOR_RATE, MAX_E,
    INITIAL_E, INITIAL_FLOOR]

/-- C9 (amended): `update` with a ZERO `dt` argument is a no-op on
`E`, `E_floor`, `totalCare` and `interactions`, for every care and
damage input; in the `Soul` variant (clock-derived dt), a call with zero
elapsed time likewise leaves `E`, `E_floor`, `E_peak` and `totalCare`
unchanged. -/
theorem zero_dt_update_noop :
    (∀ (s : AffectiveCore) (care damage : ℚ) (now : ℕ),
      (s.update care damage 0 now).E = s.E ∧
        (s.update care damage 0 now).E_floor = s.E_floor ∧
        (s.update care damage 0 now).totalCare = s.totalCare ∧
        (s.update care damage 0 now).interactions = s.interactions) ∧
    (∀ (t : Soul) (care damage : ℚ),
      (t.update care damage t.lastUpdate).E = t.E ∧
        (t.update care damage t.lastUpdate).E_floor = t.E_floor ∧
        (t.update care damage t.lastUpdate).E_peak = t.E_peak ∧
        (t.update care damage t.lastUpdate).totalCare = t.totalCare) := by
  constructor
  · intro s care damage now
    rw [AffectiveCore.update]
    norm_num
  · intro t care damage
    rw [Soul.update]
    simp [dtMs_self]

/-- C1: along every trace of `update` calls with `care ≥ 0`, `damage ≥ 0`
and `dt > 0`, after every call `E_floor ≤ E ≤ MAX_E` holds, `E_floor`
never decreases, and (in the `Soul` variant) the peak satisfies
`E_peak = max (old E_peak) E`. -/
theorem update_trace_invariants :
    (∀ (s : AffectiveCore) (l : List CoreInput),
      coreInv s →
      (∀ x ∈ l, 0 ≤ x.care ∧ 0 ≤ x.damage ∧ 0 < x.dt_minutes) →
      ∀ n : ℕ,
        coreInv (runCore s (l.take n)) ∧
          (runCore s (l.take n)).E_floor ≤
            (runCore s (l.take (n + 1))).E_floor) ∧
    (∀ (t : Soul) (m : List SoulInput),
      soulInv t →
      (∀ x ∈ m, 0 ≤ x.care ∧ 0 ≤ x.damage) →
      (∀ n : ℕ,
        soulInv (runSoul t (m.take n)) ∧
          (runSoul t (m.take n)).E_floor ≤
            (runSoul t (m.take (n + 1))).E_floor) ∧
      ∀ n : ℕ, n < m.length →
        (runSoul t (m.take (n + 1))).E_peak =
          max (runSoul t (m.take n)).E_peak (runSoul t (m.take (n + 1))).E) := by
  constructor
  · intro s l hs _hl n
    refine ⟨runCore_inv _ s hs, ?_⟩
    rw [List.take_succ, runCore_append]
    cases hx : l[n]? with
    | none => exact le_refl _
    | some x =>
      exact (core_update_inv _ x.care x.damage x.dt_minutes x.now
        (runCore_inv _ s hs)).2
  · intro t m ht _hm
    constructor
    · intro n
      refine ⟨runSoul_inv _ t ht, ?_⟩
      rw [List.take_succ, runSoul_append]
      cases hx : m[n]? with
      | none => exact le_refl _
      | some x =>
        exact (soul_update_inv _ x.care x.damage x.now (runSoul_inv _ t ht)).2.1
    · intro n hn
      rw [List.take_succ, runSoul_append]
      rw [List.getElem?_eq_getElem hn]
      exact (soul_update_inv _ _ _ _ (runSoul_inv _ t ht)).2.2

theorem update_trace_invariants_witness :
    coreInv core0 ∧
      (∀ x ∈ [CoreInput.mk (3 / 2) 0 1 60000],
        0 ≤ x.care ∧ 0 ≤ x.damage ∧ 0 < x.dt_minutes) ∧
      coreInv (runCore core0 ([CoreInput.mk (3 / 2) 0 1 60000].take 1)) ∧
      soulInv (Soul.reset 0) ∧
      (∀ x ∈ [SoulInput.mk 1 0 60000], 0 ≤ x.care ∧ 0 ≤ x.damage) ∧
      soulInv (runSoul (Soul.reset 0) ([SoulInput.mk 1 0 60000].take 1)) := by
  have h1 : coreInv core0 := by
    norm_num [coreInv, core0, MAX_E, INITIAL_E, INITIAL_FLOOR]
  have h2 : ∀ x ∈ [CoreInput.mk (3 / 2) 0 1 60000],
      0 ≤ x.care ∧ 0 ≤ x.damage ∧ 0 < x.dt_minutes := by
    intro x hx
    simp only [List.mem_singleton] at hx
    subst hx
    norm_num
  have h3 : soulInv (Soul.reset 0) := by
    norm_num [soulInv, Soul.reset, MAX_E, INITIAL_E, INITIAL_FLOOR]
  have h4 : ∀ x ∈ [SoulInput.mk 1 0 60000], 0 ≤ x.care ∧ 0 ≤ x.damage := by
    intro x hx
    simp only [List.mem_singleton] at hx
    subst hx
    norm_num
  exact ⟨h1, h2, (update_trace_invariants.1 core0 _ h1 h2 1).1, h3, h4,
    ((update_trace_invariants.2 (Soul.reset 0) _ h3 h4).1 1).1⟩

/-- C2: a record written by `save()` validates, but corrupting any
single byte of it — payload or stored-checksum field — makes
`loadFromEEPROM` reject it (the recomputed weighted byte-sum checksum no
longer matches), and `load()` then falls through to the secondary
LittleFS tier (or factory defaults), never trusting the record. -/
theorem single_byte_corruption_falls_through (payload : List ℕ)
    (hlen : payload.length = PAYLOAD_BYTES) (hb : ∀ b ∈ payload, b < 256)
    (j v : ℕ) (hj : j < SOUL_BYTES) (hv : v < 256)
    (hne : v ≠ (savedRecord payload).getD j 0) (la lo : Bool) :
    eepromAccept true EEPROM_MAGIC (savedRecord payload) = true ∧
      eepromAccept true EEPROM_MAGIC ((savedRecord payload).set j v) = false ∧
      soulLoad true EEPROM_MAGIC ((savedRecord payload).set j v) la lo =
        (if la && lo then LoadTier.littlefs else LoadTier.fresh) := by
  have hcs_lt := calculateChecksum_lt payload
  have htake : (savedRecord payload).take PAYLOAD_BYTES = payload :=
    List.take_left' hlen
  have hdrop : (savedRecord payload).drop PAYLOAD_BYTES =
      encode32 (calculateChecksum payload) :=
    List.drop_left' hlen
  have hgood : eepromAccept true EEPROM_MAGIC (savedRecord payload) = true := by
    unfold eepromAccept
    rw [htake, hdrop, decode32_encode32 _ hcs_lt]
    simp
  refine ⟨hgood, ?_⟩
  have hreject :
      eepromAccept true EEPROM_MAGIC ((savedRecord payload).set j v) = false := by
    rcases Nat.lt_or_ge j PAYLOAD_BYTES with hlt | hge
    · -- a payload byte was corrupted: the recomputed sum changes
      have hjlen : j < payload.length := by rw [hlen]; exact hlt
      have hset : (savedRecord payload).set j v =
          payload.set j v ++ encode32 (calculateChecksum payload) :=
        List.set_append_left j v hjlen
      have htake2 :
          (payload.set j v ++ encode32 (calculateChecksum payload)).take
            PAYLOAD_BYTES = payload.set j v :=
        List.take_left' (by rw [List.length_set, hlen])
      have hdrop2 :
          (payload.set j v ++ encode32 (calculateChecksum payload)).drop
            PAYLOAD_BYTES = encode32 (calculateChecksum payload) :=
        List.drop_left' (by rw [List.length_set, hlen])
      have hgetD : (savedRecord payload).getD j 0 = payload.getD j 0 :=
        List.getD_append _ _ _ _ hjlen
      rw [hgetD] at hne
      have hcsne := calculateChecksum_set_ne payload hb hlen j v hlt hv hne
      unfold eepromAccept
      rw [hset, htake2, hdrop2, decode32_encode32 _ hcs_lt]
      simp only [Bool.true_and, Bool.and_eq_false_iff, beq_eq_false_iff_ne,
        ne_eq]
      right
      exact fun heq => hcsne heq.symm
    · -- a stored-checksum byte was corrupted: the stored value changes
      have hjlen : payload.length ≤ j := by rw [hlen]; exact hge
      have hk4 : j - PAYLOAD_BYTES < 4 := by
        have : SOUL_BYTES = PAYLOAD_BYTES + 4 := by decide
        omega
      have hset : (savedRecord payload).set j v =
          payload ++ (encode32 (calculateChecksum payload)).set (j - payload.length) v :=
        List.set_append_right j v hjlen
      have hgetD : (savedRecord payload).getD j 0 =
          (encode32 (calculateChecksum payload)).getD (j - payload.length) 0 :=
        List.getD_append_right _ _ _ _ hjlen
      rw [hgetD, hlen] at hne
      have hdec :=
        decode32_set_ne (calculateChecksum payload) (j - PAYLOAD_BYTES) v hcs_lt
          hk4 hne
      unfold eepromAccept
      rw [hset, List.take_left' hlen, List.drop_left' hlen, hlen]
      simp only [Bool.true_and, Bool.and_eq_false_iff, beq_eq_false_iff_ne,
        ne_eq]
      right
      exact hdec
  refine ⟨hreject, ?_⟩
  rw [soulLoad, hreject]
  simp

theorem single_byte_corruption_witness :
    (1 : ℕ) ≠ (savedRecord (List.replicate 76 0)).getD 0 0 ∧
      eepromAccept true EEPROM_MAGIC
          ((savedRecord (List.replicate 76 0)).set 0 1) = false ∧
      soulLoad true EEPROM_MAGIC ((savedRecord (List.replicate 76 0)).set 0 1)
          true true = LoadTier.littlefs :=
  ⟨by decide,
    (single_byte_corruption_falls_through (List.replicate 76 0) (by decide)
        (by decide) 0 1 (by decide) (by decide) (by decide) true true).2.1,
    (single_byte_corruption_falls_through (List.replicate 76 0) (by decide)
        (by decide) 0 1 (by decide) (by decide) (by decide) true true).2.2⟩

/-- C4: `getState` is a pure, monotone step function of `E` alone: its
bucket index equals the number of thresholds strictly exceeded (so the
state is the highest bucket with `E > t`, `STATE_PROTECTING` the
catch-all), it is monotone in `E`, the boundary `E = 0.5` lands in the
lowest bucket, and identical `E` yields identical state. -/
theorem getState_step_function :
    (∀ E : ℚ, stateRank (getState E) = countExceeded E) ∧
      (∀ E1 E2 : ℚ, E1 ≤ E2 → stateRank (getState E1) ≤ stateRank (getState E2)) ∧
      getState (1 / 2) = AffectiveState.STATE_PROTECTING ∧
      (∀ E1 E2 : ℚ, E1 = E2 → getState E1 = getState E2) := by
  refine ⟨stateRank_getState, ?_, ?_, fun E1 E2 h => h ▸ rfl⟩
  · intro E1 E2 h
    rw [stateRank_getState, stateRank_getState]
    exact countExceeded_mono h
  · norm_num [getState, E_TRANSCENDENT, E_RADIANT, E_FLOURISHING, E_WARM,
      E_TENDER, E_GUARDED]

theorem getState_step_function_witness :
    (1 : ℚ) ≤ 2 ∧ stateRank (getState 1) ≤ stateRank (getState 2) :=
  ⟨by norm_num, getState_step_function.2.1 1 2 (by norm_num)⟩

/-- C5: starting from zero consecutive failures, a run of `n`
server-error/transport failures (no intervening success) leaves
`consecutive_failures = n` and
`backoff_ms = min (base * 2 ^ (n - 1)) backoffMax`; independently, the
offline flag of `OfflineMode` becomes true exactly from the second
consecutive `connectionFailed()` report on. -/
theorem backoff_sequence :
    (∀ s : CloudStatus, s.consecutive_failures = 0 →
      ∀ l : List (ℤ × ℕ), (∀ p ∈ l, 500 ≤ p.1 ∨ p.1 < 0) → l ≠ [] →
        (runCodes s l).consecutive_failures = l.length ∧
          (runCodes s l).backoff_ms =
            min (API_BACKOFF_BASE_MS * 2 ^ (l.length - 1)) API_BACKOFF_MAX_MS) ∧
    ∀ n : ℕ,
      (OfflineMode.connectionFailed^[n] OfflineMode.init).isOffline =
        decide (2 ≤ n) := by
  constructor
  · intro s h0 l hl hne
    obtain ⟨hf, hb⟩ := runCodes_fail l s hl
    rw [h0] at hf hb
    refine ⟨by rw [hf]; omega, ?_⟩
    rw [hb hne]
    have : 0 + l.length = l.length := by omega
    rw [this, backoff_min_pow]
  · intro n
    rw [connectionFailed_iterate n]

theorem backoff_sequence_witness :
    CloudStatus.init.consecutive_failures = 0 ∧
      (∀ p ∈ [((500 : ℤ), (0 : ℕ)), (-1, 5), (503, 9)], 500 ≤ p.1 ∨ p.1 < 0) ∧
      ([((500 : ℤ), (0 : ℕ)), (-1, 5), (503, 9)] ≠ ([] : List (ℤ × ℕ))) ∧
      (runCodes CloudStatus.init [((500 : ℤ), (0 : ℕ)), (-1, 5), (503, 9)]).backoff_ms =
        min (API_BACKOFF_BASE_MS *
            2 ^ ([((500 : ℤ), (0 : ℕ)), (-1, 5), (503, 9)].length - 1))
          API_BACKOFF_MAX_MS ∧
      (OfflineMode.connectionFailed^[2] OfflineMode.init).isOffline = decide (2 ≤ 2) :=
  ⟨rfl, by decide, by decide,
    (backoff_sequence.1 CloudStatus.init rfl _ (by decide) (by decide)).2,
    backoff_sequence.2 2⟩

/-- C6: after a 402 response, `billing_ok = false` while the failure
counter, backoff window, token and connection flags are untouched; every
later `chat()` returns `false` without mutating the client, whatever
operations happen in between, while `care()` and `sync()` still proceed
to attempt (stamping `last_attempt`) whenever `shouldAttempt()` allows. -/
theorem quota_gates_chat_only (c : CloudClient) (now0 : ℕ) :
    (handleResponseCode 402 now0 c.status).billing_ok = false ∧
      (handleResponseCode 402 now0 c.status).consecutive_failures =
        c.status.consecutive_failures ∧
      (handleResponseCode 402 now0 c.status).backoff_ms = c.status.backoff_ms ∧
      (handleResponseCode 402 now0 c.status).token_valid = c.status.token_valid ∧
      (handleResponseCode 402 now0 c.status).connected = c.status.connected ∧
      (∀ (ops : List CloudOp) (now : ℕ) (code : ℤ),
        (CloudClient.run { c with status := handleResponseCode 402 now0 c.status }
            ops).status.billing_ok = false ∧
          CloudClient.chat
              (CloudClient.run
                { c with status := handleResponseCode 402 now0 c.status } ops)
              now code =
            (false,
              CloudClient.run { c with status := handleResponseCode 402 now0 c.status }
                ops)) ∧
      ∀ (now : ℕ) (code : ℤ),
        CloudClient.shouldAttempt
            { c with status := handleResponseCode 402 now0 c.status } now = true →
          (CloudClient.care { c with status := handleResponseCode 402 now0 c.status }
              now code).2.status.last_attempt = now ∧
            (CloudClient.care
                { c with status := handleResponseCode 402 now0 c.status }
                now code).1 = (code == 200) ∧
            (CloudClient.sync { c with status := handleResponseCode 402 now0 c.status }
                now code).2.status.last_attempt = now ∧
            (CloudClient.sync
                { c with status := handleResponseCode 402 now0 c.status }
                now code).1 = (code == 200) := by
  have h402 : handleResponseCode 402 now0 c.status =
      { c.status with billing_ok := false } := by
    rw [handleResponseCode]
    norm_num
  have hbill : (handleResponseCode 402 now0 c.status).billing_ok = false := by
    rw [h402]
  refine ⟨hbill, by rw [h402], by rw [h402], by rw [h402], by rw [h402], ?_, ?_⟩
  · intro ops now code
    have hrun := run_billing_mono ops
      { c with status := handleResponseCode 402 now0 c.status } hbill
    exact ⟨hrun, chat_blocked_of_billing _ now code hrun⟩
  · intro now code hatt
    have hnot : ¬((!CloudClient.shouldAttempt
        { c with status := handleResponseCode 402 now0 c.status } now) = true) := by
      rw [hatt]
      decide
    constructor
    · rw [CloudClient.care, if_neg hnot]
      exact handleResponseCode_last_attempt code now _
    refine ⟨by rw [CloudClient.care, if_neg hnot], ?_, ?_⟩
    · rw [CloudClient.sync, if_neg hnot]
      exact handleResponseCode_last_attempt code now _
    · rw [CloudClient.sync, if_neg hnot]

/-- A correctly configured client with a fresh status, for witnesses. -/
def clientReady : CloudClient where
  initialized := true
  configured := true
  status := CloudStatus.init

theorem quota_gates_chat_only_witness :
    CloudClient.shouldAttempt
        { clientReady with status := handleResponseCode 402 3 clientReady.status }
        10 = true ∧
      (CloudClient.care
          { clientReady with status := handleResponseCode 402 3 clientReady.status }
          10 200).2.status.last_attempt = 10 :=
  ⟨by decide, ((quota_gates_chat_only clientReady 3).2.2.2.2.2.2 10 200 (by decide)).1⟩

/-- A configured client whose token has been revoked (401 seen). -/
def cloudAuthRevoked : CloudClient where
  initialized := true
  configured := true
  status := { CloudStatus.init with token_valid := false, connected := true }

/-- C7 counterexample: in the auth-revoked fallback path,
`chatWithCloud` returns the substitute response WITHOUT applying any
care increment — the soul is returned completely unchanged (contrast
`applyCare`, which always increments `interactions`). -/
theorem chat_fallback_auth_no_care :
    (chatWithCloud true cloudAuthRevoked (Soul.reset 0) OfflineMode.init 1000 200
        (1 / 2)).source = ChatSource.auth ∧
      (chatWithCloud true cloudAuthRevoked (Soul.reset 0) OfflineMode.init 1000 200
          (1 / 2)).soul = Soul.reset 0 :=
  ⟨rfl, rfl⟩

/-- C7 (amended): the unreachable/unconfigured, already-known-quota and
network/server-failure fallbacks apply the fixed local-only care
increments (0.5, 0.3, 0.5) via `applyCare` before returning the
substitute response; the auth-revoked fallback, and a quota rejection
first discovered during the call itself, return the substitute response
without a care increment. -/
theorem chat_fallback_care (wifi : Bool) (c : CloudClient) (s : Soul)
    (om : OfflineMode) (now : ℕ) (code : ℤ) (v : ℚ) :
    ((!wifi || !c.initialized) = true →
      chatWithCloud wifi c s om now code v =
        { soul := s.applyCare (1 / 2) now, client := c, om := om,
          source := .offline }) ∧
    ((!wifi || !c.initialized) = false → c.status.token_valid = false →
      chatWithCloud wifi c s om now code v =
        { soul := s, client := c, om := om, source := .auth }) ∧
    ((!wifi || !c.initialized) = false → c.status.token_valid = true →
      c.status.billing_ok = false →
      chatWithCloud wifi c s om now code v =
        { soul := s.applyCare (3 / 10) now, client := c, om := om,
          source := .billing }) ∧
    ((!wifi || !c.initialized) = false → c.status.token_valid = true →
      c.status.billing_ok = true → (c.chat now code).1 = false →
      (c.chat now code).2.status.billing_ok = false →
      chatWithCloud wifi c s om now code v =
        { soul := s, client := (c.chat now code).2, om := om,
          source := .billing }) ∧
    ((!wifi || !c.initialized) = false → c.status.token_valid = true →
      c.status.billing_ok = true → (c.chat now code).1 = false →
      (c.chat now code).2.status.billing_ok = true →
      chatWithCloud wifi c s om now code v =
        { soul := s.applyCare (1 / 2) now, client := (c.chat now code).2,
          om := om.connectionFailed, source := .offline }) := by
  refine ⟨?_, ?_, ?_, ?_, ?_⟩
  · intro h1
    rw [chatWithCloud, if_pos h1]
  · intro h1 h2
    rw [chatWithCloud, if_neg (by simp [h1]), if_pos (by simp [h2])]
  · intro h1 h2 h3
    rw [chatWithCloud, if_neg (by simp [h1]), if_neg (by simp [h2]),
      if_pos (by simp [h3])]
  · intro h1 h2 h3 h4 h5
    rw [chatWithCloud, if_neg (by simp [h1]), if_neg (by simp [h2]),
      if_neg (by simp [h3])]
    show (if (c.chat now code).1 = true then _ else _) = _
    rw [if_neg (by simp [h4]), if_pos (by simp [h5])]
  · intro h1 h2 h3 h4 h5
    rw [chatWithCloud, if_neg (by simp [h1]), if_neg (by simp [h2]),
      if_neg (by simp [h3])]
    show (if (c.chat now code).1 = true then _ else _) = _
    rw [if_neg (by simp [h4]), if_neg (by simp [h5])]

theorem chat_fallback_care_witness :
    ((!false || !clientReady.initialized) = true) ∧
      chatWithCloud false clientReady (Soul.reset 0) OfflineMode.init 0 200 1 =
        { soul := (Soul.reset 0).applyCare (1 / 2) 0, client := clientReady,
          om := OfflineMode.init, source := .offline } :=
  ⟨by decide,
    (chat_fallback_care false clientReady (Soul.reset 0) OfflineMode.init 0 200 1).1
      (by decide)⟩

/-- C10: in the `Soul` variant, `applyCare` arriving with zero elapsed
milliseconds still increments `interactions` but leaves every other
field unchanged, because the inner update is skipped for `dt ≤ 0`. -/
theorem applyCare_zero_elapsed (s : Soul) (intensity : ℚ) :
    Soul.applyCare s intensity s.lastUpdate =
      { s with interactions := s.interactions + 1 } := by
  simp [Soul.applyCare, Soul.update, dtMs_self]

end ApexPocket
